import Mathlib

/-!
Verification of the wplace-tomsk-timelapse capture-and-compose pipeline.

Shallow embedding of the repository sources:
  capture_tiles.py      — download_tile, merge_tiles, main
  create_timelapse.py   — get_images_for_date, resize_image_to_fit,
                          the timestamp derivation inside create_timelapse_video,
                          and the success/failure accounting of that function
  generate_timelapse.py — create_image_list_file, create_timelapse_with_ffmpeg

Python strings are modelled as lists of characters and Python string
primitives (split, slicing, lexicographic comparison by code point) are
given explicit structural definitions so that concrete runs evaluate
inside the kernel.  Python float arithmetic in resize_image_to_fit is
modelled by exact rational arithmetic.
-/

namespace Wplace

/-! ## Python string primitives -/

/-- Python str.split with an explicit one-character separator:
keeps empty pieces, never collapses runs, and on the empty string
returns one empty piece — exactly CPython semantics. -/
def pySplit (sep : Char) : List Char → List (List Char)
  | [] => [[]]
  | c :: rest =>
    let r := pySplit sep rest
    if c = sep then
      [] :: r
    else
      match r with
      | [] => [[c]]
      | g :: gs => (c :: g) :: gs

/-- Python slice s[a:b] on a character list: clamped, never raising. -/
def pySlice (s : List Char) (a b : Nat) : List Char :=
  (s.drop a).take (b - a)

/-- Python string comparison (less-or-equal), lexicographic by code point. -/
def pyStrLE : List Char → List Char → Bool
  | [], _ => true
  | _ :: _, [] => false
  | a :: as, b :: bs =>
    if a.toNat < b.toNat then true
    else if b.toNat < a.toNat then false
    else pyStrLE as bs

/-- Python string comparison is total. -/
theorem pyStrLE_total : ∀ a b : List Char, pyStrLE a b = true ∨ pyStrLE b a = true
  | [], _ => Or.inl rfl
  | _ :: _, [] => Or.inr rfl
  | a :: as, b :: bs => by
    by_cases hab : a.toNat < b.toNat
    · exact Or.inl (by simp [pyStrLE, hab])
    · by_cases hba : b.toNat < a.toNat
      · exact Or.inr (by simp [pyStrLE, hba, Nat.lt_asymm hba])
      · have heq : ¬ a.toNat < b.toNat := hab
        rcases pyStrLE_total as bs with h | h
        · exact Or.inl (by simp [pyStrLE, hab, hba, h])
        · exact Or.inr (by simp [pyStrLE, hab, hba, h])

/-- Python string comparison is transitive. -/
theorem pyStrLE_trans : ∀ a b c : List Char,
    pyStrLE a b = true → pyStrLE b c = true → pyStrLE a c = true
  | [], _, _, _, _ => rfl
  | _ :: _, [], _, h, _ => by simp [pyStrLE] at h
  | _ :: _, _ :: _, [], _, h => by simp [pyStrLE] at h
  | a :: as, b :: bs, c :: cs, hab, hbc => by
    simp only [pyStrLE] at hab hbc ⊢
    by_cases h1 : a.toNat < b.toNat
    · by_cases h2 : b.toNat < c.toNat
      · simp [Nat.lt_trans h1 h2]
      · by_cases h3 : c.toNat < b.toNat
        · simp [h2, h3] at hbc
        · have hcb : b.toNat = c.toNat := by omega
          simp [hcb ▸ h1]
    · by_cases h1' : b.toNat < a.toNat
      · simp [h1, h1'] at hab
      · have hba : a.toNat = b.toNat := by omega
        by_cases h2 : b.toNat < c.toNat
        · simp [hba ▸ h2]
        · by_cases h3 : c.toNat < b.toNat
          · simp [h2, h3] at hbc
          · have hcb : b.toNat = c.toNat := by omega
            have hab' : pyStrLE as bs = true := by simpa [h1, h1'] using hab
            have hbc' : pyStrLE bs cs = true := by simpa [h2, h3] using hbc
            have hac : ¬ a.toNat < c.toNat := by omega
            have hca : ¬ c.toNat < a.toNat := by omega
            simp only [if_neg hac, if_neg hca]
            exact pyStrLE_trans as bs cs hab' hbc'

/-! ## capture_tiles.py — download_tile -/

/-- Raw tile bytes. -/
abbrev TileBytes := List Nat

/-- Outcome of one call of download_tile: the function either returns the
response content, re-raises the last exception, or (only when max_retries
is zero, so the loop body never runs) falls off the end returning None. -/
inductive FetchOutcome
  | success (bytes : TileBytes)
  | raised
  | returnedNone
deriving DecidableEq

/-- Observable trace of one download_tile call: how many HTTP attempts were
issued, which sleep durations were performed (in order), and the outcome. -/
structure FetchRun where
  attempts : Nat
  sleeps : List Nat
  outcome : FetchOutcome
deriving DecidableEq

/-- Loop body of download_tile.  The Python source iterates
`for attempt in range(max_retries)`; `fuel` is the number of remaining
iterations, `attempt` the current index.  On each attempt the session GET
either yields content (modelled by `server attempt = some bytes`) or raises;
on failure the code sleeps `2 ** attempt` seconds if `attempt <
max_retries - 1`, otherwise re-raises. -/
def downloadTileGo (server : Nat → Option TileBytes) (max_retries : Nat) :
    Nat → Nat → FetchRun
  | _, 0 => ⟨0, [], FetchOutcome.returnedNone⟩
  | attempt, fuel + 1 =>
    match server attempt with
    | some bytes => ⟨1, [], FetchOutcome.success bytes⟩
    | none =>
      if attempt < max_retries - 1 then
        ⟨(downloadTileGo server max_retries (attempt + 1) fuel).attempts + 1,
         2 ^ attempt :: (downloadTileGo server max_retries (attempt + 1) fuel).sleeps,
         (downloadTileGo server max_retries (attempt + 1) fuel).outcome⟩
      else
        ⟨1, [], FetchOutcome.raised⟩

/-- Embedding of download_tile (capture_tiles.py lines 30-44). `server i`
is the response of the i-th attempt (`none` = network error or non-2xx). -/
def download_tile (server : Nat → Option TileBytes) (max_retries : Nat) : FetchRun :=
  downloadTileGo server max_retries 0 max_retries

theorem downloadTileGo_attempts_le (server : Nat → Option TileBytes)
    (mr : Nat) : ∀ fuel attempt, (downloadTileGo server mr attempt fuel).attempts ≤ fuel
  | 0, _ => Nat.le_refl 0
  | fuel + 1, attempt => by
    unfold downloadTileGo
    match server attempt with
    | some bytes => exact Nat.le_add_left 1 fuel
    | none =>
      by_cases h : attempt < mr - 1
      · simp only [if_pos h]
        exact Nat.succ_le_succ (downloadTileGo_attempts_le server mr fuel (attempt + 1))
      · simp only [if_neg h]
        exact Nat.le_add_left 1 fuel

theorem downloadTileGo_attempts_pos (server : Nat → Option TileBytes)
    (mr : Nat) (fuel attempt : Nat) (hf : 1 ≤ fuel) :
    1 ≤ (downloadTileGo server mr attempt fuel).attempts := by
  match fuel, hf with
  | fuel + 1, _ =>
    unfold downloadTileGo
    match server attempt with
    | some bytes => exact Nat.le_refl 1
    | none =>
      by_cases h : attempt < mr - 1
      · simp only [if_pos h]
        exact Nat.succ_le_succ (Nat.zero_le _)
      · simp only [if_neg h]
        exact Nat.le_refl 1

theorem downloadTileGo_sleeps (server : Nat → Option TileBytes) (mr : Nat) :
    ∀ fuel attempt, attempt + fuel = mr →
      (downloadTileGo server mr attempt fuel).sleeps =
        (List.range ((downloadTileGo server mr attempt fuel).attempts - 1)).map
          (fun i => 2 ^ (attempt + i))
  | 0, attempt, _ => by simp [downloadTileGo]
  | fuel + 1, attempt, hinv => by
    unfold downloadTileGo
    match server attempt with
    | some bytes => simp
    | none =>
      by_cases h : attempt < mr - 1
      · simp only [if_pos h]
        have hf : 1 ≤ fuel := by omega
        have hpos := downloadTileGo_attempts_pos server mr fuel (attempt + 1) hf
        have ih := downloadTileGo_sleeps server mr fuel (attempt + 1) (by omega)
        obtain ⟨n, hn⟩ : ∃ n, (downloadTileGo server mr (attempt + 1) fuel).attempts = n + 1 :=
          ⟨(downloadTileGo server mr (attempt + 1) fuel).attempts - 1, by omega⟩
        rw [hn] at ih
        simp only [Nat.add_sub_cancel] at ih
        show 2 ^ attempt :: (downloadTileGo server mr (attempt + 1) fuel).sleeps =
          (List.range ((downloadTileGo server mr (attempt + 1) fuel).attempts + 1 - 1)).map
            (fun i => 2 ^ (attempt + i))
        rw [ih, hn]
        simp only [Nat.add_sub_cancel]
        rw [List.range_succ_eq_map, List.map_cons, List.map_map]
        congr 1
        apply List.map_congr_left
        intro i _
        simp only [Function.comp_apply]
        congr 1
        omega
      · simp only [if_neg h]
        simp

theorem downloadTileGo_success (server : Nat → Option TileBytes) (mr : Nat)
    (b : TileBytes) :
    ∀ fuel attempt, attempt + fuel = mr → attempt ≤ mr - 1 → 1 ≤ mr →
      (∀ i, attempt ≤ i → i < mr - 1 → server i = none) →
      server (mr - 1) = some b →
      (downloadTileGo server mr attempt fuel).outcome = FetchOutcome.success b
  | 0, attempt, hinv, hle, hmr, _, _ => by omega
  | fuel + 1, attempt, hinv, hle, hmr, hfail, hsucc => by
    unfold downloadTileGo
    by_cases hlast : attempt = mr - 1
    · rw [hlast, hsucc]
    · have hlt : attempt < mr - 1 := Nat.lt_of_le_of_ne hle hlast
      rw [hfail attempt (Nat.le_refl _) hlt]
      simp only [if_pos hlt]
      exact downloadTileGo_success server mr b fuel (attempt + 1) (by omega) (by omega) hmr
        (fun i hi hilt => hfail i (by omega) hilt) hsucc

/-! ## capture_tiles.py — merge_tiles -/

/-- One element of tile_data in capture_tiles.main: `none` when the tile
download failed (the list holds Python None), otherwise the result of
Image.open on the buffered bytes — which itself may raise (decode failure,
caught by the except inside merge_tiles) or produce an image. -/
abbrev TileSlot (α : Type) := Option (Except Unit α)

/-- Result of merge_tiles: the allocated canvas dimensions (the Python code
allocates `Image.new('RGB', (w, h))`, black-filled background) and the list
of paste operations `(x, y, tile)` performed, in loop order. -/
structure MergeResult (α : Type) where
  width : Nat
  height : Nat
  pastes : List (Nat × Nat × α)
deriving DecidableEq

/-- Paste operations of the merge_tiles loop starting at index i: a slot
holding a decodable tile is pasted at
`((i % columns) * tile_w, (i / columns) * tile_h)`; a None slot or a slot
whose decode raises is skipped. -/
def mergePastes {α : Type} (columns tile_w tile_h : Nat) :
    Nat → List (TileSlot α) → List (Nat × Nat × α)
  | _, [] => []
  | i, slot :: rest =>
    match slot with
    | some (Except.ok img) =>
      (i % columns * tile_w, i / columns * tile_h, img) ::
        mergePastes columns tile_w tile_h (i + 1) rest
    | _ => mergePastes columns tile_w tile_h (i + 1) rest

/-- Embedding of merge_tiles (capture_tiles.py lines 46-66). -/
def merge_tiles {α : Type} (tile_data : List (TileSlot α))
    (grid_size tile_size : Nat × Nat) : MergeResult α :=
  { width := grid_size.1 * tile_size.1
    height := grid_size.2 * tile_size.2
    pastes := mergePastes grid_size.1 tile_size.1 tile_size.2 0 tile_data }

theorem mergePastes_mem_of_get {α : Type} (columns tile_w tile_h : Nat) :
    ∀ (start : Nat) (td : List (TileSlot α)) (i : Nat) (img : α),
      td.get? i = some (some (Except.ok img)) →
      ((start + i) % columns * tile_w, (start + i) / columns * tile_h, img) ∈
        mergePastes columns tile_w tile_h start td
  | _, [], i, _, h => by simp at h
  | start, slot :: rest, 0, img, h => by
    simp only [List.get?] at h
    injection h with h
    rw [h]
    simp [mergePastes]
  | start, slot :: rest, i + 1, img, h => by
    simp only [List.get?] at h
    have ih := mergePastes_mem_of_get columns tile_w tile_h (start + 1) rest i img h
    have harith : start + 1 + i = start + (i + 1) := by omega
    rw [harith] at ih
    unfold mergePastes
    match slot with
    | some (Except.ok img2) => exact List.mem_cons_of_mem _ ih
    | some (Except.error e) => exact ih
    | none => exact ih

theorem mergePastes_get_of_mem {α : Type} (columns tile_w tile_h : Nat) :
    ∀ (start : Nat) (td : List (TileSlot α)) (p : Nat × Nat × α),
      p ∈ mergePastes columns tile_w tile_h start td →
      ∃ i img, td.get? i = some (some (Except.ok img)) ∧
        p = ((start + i) % columns * tile_w, (start + i) / columns * tile_h, img)
  | _, [], p, h => by simp [mergePastes] at h
  | start, slot :: rest, p, h => by
    unfold mergePastes at h
    match slot with
    | some (Except.ok img) =>
      rcases List.mem_cons.mp h with h | h
      · exact ⟨0, img, rfl, by rw [h, Nat.add_zero]⟩
      · rcases mergePastes_get_of_mem columns tile_w tile_h (start + 1) rest p h with
          ⟨i, img2, hget, hp⟩
        have harith : start + 1 + i = start + (i + 1) := by omega
        exact ⟨i + 1, img2, hget, by rw [hp, harith]⟩
    | some (Except.error e) =>
      rcases mergePastes_get_of_mem columns tile_w tile_h (start + 1) rest p h with
        ⟨i, img2, hget, hp⟩
      have harith : start + 1 + i = start + (i + 1) := by omega
      exact ⟨i + 1, img2, hget, by rw [hp, harith]⟩
    | none =>
      rcases mergePastes_get_of_mem columns tile_w tile_h (start + 1) rest p h with
        ⟨i, img2, hget, hp⟩
      have harith : start + 1 + i = start + (i + 1) := by omega
      exact ⟨i + 1, img2, hget, by rw [hp, harith]⟩

/-! ## capture_tiles.py — main and process exit -/

/-- Observable effects of one run of capture_tiles.main followed by the
`if __name__ == "__main__": main()` entry point: the image files saved, the
metadata sidecars written, and the process exit status.  `fetches` lists,
per coordinate of TILE_COORDS, whether download_tile ultimately returned
bytes or raised (each per-tile exception is caught in main's loop). -/
structure CaptureRun where
  imagesWritten : List String
  metadataWritten : Bool
  exitCode : Nat
deriving DecidableEq

/-- Embedding of capture_tiles.main (lines 96-153) plus the module entry
point (lines 155-156).  When success_count is zero main returns early —
before any save — and the script still finishes with exit status 0, since
the entry point ignores main's return value and never calls sys.exit. -/
def capture_main (fetches : List (Except Unit TileBytes)) (filename : String) : CaptureRun :=
  let success_count := (fetches.filter (fun f => f.isOk)).length
  if success_count = 0 then
    { imagesWritten := [], metadataWritten := false, exitCode := 0 }
  else
    { imagesWritten := ["images/" ++ filename, "docs/images/" ++ filename, "docs/latest.png"]
      metadataWritten := true
      exitCode := 0 }

/-! ## create_timelapse.py — get_images_for_date -/

/-- Embedding of extract_timestamp_key, the local sort key of
get_images_for_date (create_timelapse.py lines 49-56): split the filename
on the underscore; with at least four pieces, the key is
`parts[2] + "_" + parts[3]` with the extension stripped from parts[3];
otherwise the key is the raw filename. -/
def extract_timestamp_key (filename : List Char) : List Char :=
  let parts := pySplit '_' filename
  if 4 ≤ parts.length then
    let date_part := parts.getD 2 []
    let time_part := (pySplit '.' (parts.getD 3 [])).headD []
    date_part ++ '_' :: time_part
  else filename

/-- The glob pattern merged_tiles_*.png of get_images_for_date, as a
predicate on a file name (for names containing no path separator this is
exactly fnmatch of that pattern). -/
def snapshotGlobMatch (f : List Char) : Bool :=
  "merged_tiles_".toList.isPrefixOf f && ".png".toList.isSuffixOf f

/-- Comparison of file names by the extracted timestamp key, as used by
`images.sort(key=extract_timestamp_key)`. -/
def timestampKeyLE (a b : List Char) : Prop :=
  pyStrLE (extract_timestamp_key a) (extract_timestamp_key b) = true

instance decTimestampKeyLE : DecidableRel timestampKeyLE := fun a b =>
  inferInstanceAs (Decidable (pyStrLE (extract_timestamp_key a) (extract_timestamp_key b) = true))

instance totalTimestampKeyLE : IsTotal (List Char) timestampKeyLE :=
  ⟨fun a b => pyStrLE_total (extract_timestamp_key a) (extract_timestamp_key b)⟩

instance transTimestampKeyLE : IsTrans (List Char) timestampKeyLE :=
  ⟨fun a b c => pyStrLE_trans (extract_timestamp_key a) (extract_timestamp_key b)
    (extract_timestamp_key c)⟩

/-- Embedding of get_images_for_date (create_timelapse.py lines 29-61):
the day directory listing is filtered by the glob pattern and sorted
ascending by extract_timestamp_key.  Python list.sort is a stable
ascending sort, modelled here by (stable) insertion sort. -/
def get_images_for_date (dirFiles : List (List Char)) : List (List Char) :=
  List.insertionSort timestampKeyLE (dirFiles.filter snapshotGlobMatch)

/-- Modelled from the claim of C5, for comparison with the source: the key
described there is `date_part + "_" + time_part` for filenames of the shape
prefix_YYYYMMDD_HHMMSS.ext (eight date digits, six time digits, an
extension), and the raw filename as fallback for every other name. -/
def claimSortKey (filename : List Char) : List Char :=
  let parts := pySplit '_' filename
  let n := parts.length
  let date := parts.getD (n - 2) []
  let pieces := pySplit '.' (parts.getD (n - 1) [])
  let time := pieces.headD []
  if 3 ≤ n ∧ date.length = 8 ∧ date.all Char.isDigit = true ∧
      time.length = 6 ∧ time.all Char.isDigit = true ∧ 2 ≤ pieces.length then
    date ++ '_' :: time
  else filename

/-! ## create_timelapse.py — resize_image_to_fit -/

/-- The resampling filter passed to PIL Image.resize. -/
inductive ResampleMode
  | nearest
  | lanczos
deriving DecidableEq

/-- Observable result of resize_image_to_fit: the returned canvas size and
mode, the resampling filter used for the resize call, the placement box
(x, y, new_width, new_height), and whether the paste used the alpha mask. -/
structure FitResult where
  canvasWidth : Nat
  canvasHeight : Nat
  canvasMode : String
  resample : ResampleMode
  x : Int
  y : Int
  new_width : Nat
  new_height : Nat
  alphaPaste : Bool
deriving DecidableEq

/-- Python int() conversion of a real number: truncation toward zero. -/
def pyInt (q : ℚ) : Int := if q < 0 then ⌈q⌉ else ⌊q⌋

/-- Embedding of resize_image_to_fit (create_timelapse.py lines 63-102).
Python float division and multiplication are modelled by exact rational
arithmetic; Python floor division // is Int.fdiv.  The source passes
Image.Resampling.LANCZOS unconditionally to resize and pastes with the
image itself as mask exactly when its mode is RGBA. -/
def resize_image_to_fit (img_width img_height : Nat) (srcIsRGBA : Bool)
    (target_width target_height : Nat) : FitResult :=
  let scale_w : ℚ := (target_width : ℚ) / (img_width : ℚ)
  let scale_h : ℚ := (target_height : ℚ) / (img_height : ℚ)
  let scale : ℚ := min scale_w scale_h
  let new_width : Nat := (pyInt ((img_width : ℚ) * scale)).toNat
  let new_height : Nat := (pyInt ((img_height : ℚ) * scale)).toNat
  { canvasWidth := target_width
    canvasHeight := target_height
    canvasMode := "RGB"
    resample := ResampleMode.lanczos
    x := Int.fdiv ((target_width : ℤ) - (new_width : ℤ)) 2
    y := Int.fdiv ((target_height : ℤ) - (new_height : ℤ)) 2
    new_width := new_width
    new_height := new_height
    alphaPaste := srcIsRGBA }

/-- Modelled from the claim of C1, for comparison with the source: skip
resampling when source and target dimensions agree; nearest-neighbor when
the scale is an exact integer upscale or the source divides the target
evenly; a smooth Lanczos-class filter in all other cases. -/
def claimResampleChoice (src_w src_h target_w target_h : Nat) : Option ResampleMode :=
  if src_w = target_w ∧ src_h = target_h then none
  else
    let scale : ℚ := min ((target_w : ℚ) / (src_w : ℚ)) ((target_h : ℚ) / (src_h : ℚ))
    if ((⌊scale⌋ : ℚ) = scale ∧ 1 ≤ scale) ∨ (src_w ∣ target_w ∧ src_h ∣ target_h) then
      some ResampleMode.nearest
    else
      some ResampleMode.lanczos

theorem scale_nonneg (sw sh tw th : Nat) :
    0 ≤ min ((tw : ℚ) / (sw : ℚ)) ((th : ℚ) / (sh : ℚ)) :=
  le_min (by positivity) (by positivity)

theorem pyInt_of_nonneg {q : ℚ} (h : 0 ≤ q) : pyInt q = ⌊q⌋ := by
  unfold pyInt
  rw [if_neg (not_lt.mpr h)]

theorem mul_scale_le_target (sw sh tw th : Nat) (hsw : 0 < sw) :
    (sw : ℚ) * min ((tw : ℚ) / (sw : ℚ)) ((th : ℚ) / (sh : ℚ)) ≤ (tw : ℚ) := by
  have hsw' : ((sw : ℚ)) ≠ 0 := by positivity
  have h1 : min ((tw : ℚ) / (sw : ℚ)) ((th : ℚ) / (sh : ℚ)) ≤ (tw : ℚ) / (sw : ℚ) :=
    min_le_left _ _
  have h2 : (sw : ℚ) * min ((tw : ℚ) / (sw : ℚ)) ((th : ℚ) / (sh : ℚ)) ≤
      (sw : ℚ) * ((tw : ℚ) / (sw : ℚ)) := by
    apply mul_le_mul_of_nonneg_left h1
    positivity
  calc (sw : ℚ) * min ((tw : ℚ) / (sw : ℚ)) ((th : ℚ) / (sh : ℚ)) ≤
      (sw : ℚ) * ((tw : ℚ) / (sw : ℚ)) := h2
    _ = (tw : ℚ) := by
        rw [mul_comm]
        exact div_mul_cancel₀ _ hsw'

theorem resize_new_width_le (sw sh tw th : Nat) (alpha : Bool) (hsw : 0 < sw) :
    (resize_image_to_fit sw sh alpha tw th).new_width ≤ tw := by
  show (pyInt ((sw : ℚ) * min ((tw : ℚ) / (sw : ℚ)) ((th : ℚ) / (sh : ℚ)))).toNat ≤ tw
  have hq : 0 ≤ (sw : ℚ) * min ((tw : ℚ) / (sw : ℚ)) ((th : ℚ) / (sh : ℚ)) :=
    mul_nonneg (by positivity) (scale_nonneg sw sh tw th)
  rw [pyInt_of_nonneg hq]
  rw [Int.toNat_le]
  calc ⌊(sw : ℚ) * min ((tw : ℚ) / (sw : ℚ)) ((th : ℚ) / (sh : ℚ))⌋ ≤ ⌊(tw : ℚ)⌋ :=
      Int.floor_le_floor (mul_scale_le_target sw sh tw th hsw)
    _ = (tw : ℤ) := Int.floor_natCast tw

theorem resize_new_height_le (sw sh tw th : Nat) (alpha : Bool) (hsh : 0 < sh) :
    (resize_image_to_fit sw sh alpha tw th).new_height ≤ th := by
  show (pyInt ((sh : ℚ) * min ((tw : ℚ) / (sw : ℚ)) ((th : ℚ) / (sh : ℚ)))).toNat ≤ th
  have hq : 0 ≤ (sh : ℚ) * min ((tw : ℚ) / (sw : ℚ)) ((th : ℚ) / (sh : ℚ)) :=
    mul_nonneg (by positivity) (scale_nonneg sw sh tw th)
  rw [pyInt_of_nonneg hq]
  rw [Int.toNat_le]
  have hsh' : ((sh : ℚ)) ≠ 0 := by positivity
  have h1 : min ((tw : ℚ) / (sw : ℚ)) ((th : ℚ) / (sh : ℚ)) ≤ (th : ℚ) / (sh : ℚ) :=
    min_le_right _ _
  have h2 : (sh : ℚ) * min ((tw : ℚ) / (sw : ℚ)) ((th : ℚ) / (sh : ℚ)) ≤ (th : ℚ) := by
    calc (sh : ℚ) * min ((tw : ℚ) / (sw : ℚ)) ((th : ℚ) / (sh : ℚ)) ≤
        (sh : ℚ) * ((th : ℚ) / (sh : ℚ)) := by
          apply mul_le_mul_of_nonneg_left h1
          positivity
      _ = (th : ℚ) := by
          rw [mul_comm]
          exact div_mul_cancel₀ _ hsh'
  calc ⌊(sh : ℚ) * min ((tw : ℚ) / (sw : ℚ)) ((th : ℚ) / (sh : ℚ))⌋ ≤ ⌊(th : ℚ)⌋ :=
      Int.floor_le_floor h2
    _ = (th : ℤ) := Int.floor_natCast th

/-! ## create_timelapse.py — timestamp label derivation -/

/-- Embedding of the timestamp derivation inside the frame loop of
create_timelapse_video (create_timelapse.py lines 190-198).  The guard is
`len(parts) >= 3` but the body reads parts[3]; with exactly three pieces
that read raises IndexError (modelled by `none`), which the per-frame
except handler turns into a dropped frame. -/
def derive_timestamp (filename : List Char) (i : Nat) : Option (List Char) :=
  let parts := pySplit '_' filename
  if 3 ≤ parts.length then
    match parts.get? 3 with
    | none => none
    | some p3 =>
      let date_part := parts.getD 2 []
      let time_part := (pySplit '.' p3).headD []
      some (pySlice date_part 0 4 ++ '-' :: pySlice date_part 4 6 ++ '-' ::
        pySlice date_part 6 8 ++ ' ' :: pySlice time_part 0 2 ++ ':' ::
        pySlice time_part 2 4 ++ ':' :: pySlice time_part 4 6)
  else
    some ("Кадр ".toList ++ (Nat.repr (i + 1)).toList)

/-! ## create_timelapse.py — create_timelapse_video and main -/

/-- Observable result of create_timelapse_video (create_timelapse.py lines
162-229): how many frames were written to the stream, whether the output
container file was created and finalized by the VideoWriter, and the
boolean return value.  Each input element records whether the per-frame
processing of one image path (open, compose, overlay, write) succeeded or
raised; a raise is caught by the inner except handler and the loop
continues. -/
structure VideoRun where
  framesWritten : Nat
  fileFinalized : Bool
  success : Bool
deriving DecidableEq

/-- Embedding of create_timelapse_video.  With an empty image list the
function logs and returns False before opening the writer; otherwise the
writer is opened, every non-raising frame is written, release() finalizes
the file, and the function returns True — regardless of how many frames
were actually written. -/
def create_timelapse_video (frames : List (Except Unit Unit)) : VideoRun :=
  if frames.isEmpty then
    { framesWritten := 0, fileFinalized := false, success := false }
  else
    { framesWritten := (frames.filter (fun f => f.isOk)).length
      fileFinalized := true
      success := true }

/-! ## generate_timelapse.py — create_image_list_file / create_timelapse_with_ffmpeg -/

/-- Embedding of create_image_list_file (generate_timelapse.py lines
26-49): with fewer than two images it prints and returns None, otherwise
it writes the list file and returns the pair (list_file, len(images)). -/
def create_image_list_file (images : List (List Char)) : Option (String × Nat) :=
  if images.length < 2 then none
  else some ("docs/image_list.txt", images.length)

/-- Result of a call of create_timelapse_with_ffmpeg: either the tuple
unpacking of create_image_list_file's return value raises TypeError
(cannot unpack None), or the function returns a boolean. -/
inductive FfmpegCallResult
  | typeErrorRaised
  | returned (b : Bool)
deriving DecidableEq

/-- Embedding of create_timelapse_with_ffmpeg (generate_timelapse.py lines
51-96).  The statement `list_file, frame_count = create_image_list_file()`
executes before the try block, so a None return raises TypeError out of
the function; otherwise the guard `if not list_file` is checked (the
returned path is a non-empty constant) and the ffmpeg invocation,
modelled by `ffmpegOk`, decides the return value. -/
def create_timelapse_with_ffmpeg (images : List (List Char)) (ffmpegOk : Bool) :
    FfmpegCallResult :=
  match create_image_list_file images with
  | none => FfmpegCallResult.typeErrorRaised
  | some (list_file, _) =>
    if list_file.length = 0 then FfmpegCallResult.returned false
    else FfmpegCallResult.returned ffmpegOk

/-! ## Claim theorems -/

/-- C1, counterexample: the claim requires that for a target exactly twice
the source in both dimensions the chosen resample mode is
nearest-neighbor.  At source 100x100 and target 200x200 (as the
claim-side chooser confirms, an exact integer upscale) the code instead
passes the Lanczos filter to resize — resize_image_to_fit performs no mode
selection at all. -/
theorem C1_counterexample :
    (resize_image_to_fit 100 100 false 200 200).resample = ResampleMode.lanczos ∧
    claimResampleChoice 100 100 200 200 = some ResampleMode.nearest ∧
    ResampleMode.lanczos ≠ ResampleMode.nearest := by
  refine ⟨rfl, ?_, by decide⟩
  unfold claimResampleChoice
  rw [if_neg (by omega)]
  norm_num

/-- C1 (amended): resize_image_to_fit performs no resample-mode selection:
it requests the smooth Lanczos filter for every source and every target
size (equal dimensions and exact integer upscales included — no
nearest-neighbor path exists); for a target exactly twice the source in
both dimensions the placement box still exactly fills the canvas with
zero offset, but under the Lanczos mode. -/
theorem C1_resample_always_lanczos (sw sh tw th : Nat) (alpha : Bool)
    (hsw : 0 < sw) (hsh : 0 < sh) :
    (resize_image_to_fit sw sh alpha tw th).resample = ResampleMode.lanczos ∧
    (resize_image_to_fit sw sh alpha (2 * sw) (2 * sh)).new_width = 2 * sw ∧
    (resize_image_to_fit sw sh alpha (2 * sw) (2 * sh)).new_height = 2 * sh ∧
    (resize_image_to_fit sw sh alpha (2 * sw) (2 * sh)).x = 0 ∧
    (resize_image_to_fit sw sh alpha (2 * sw) (2 * sh)).y = 0 := by
  have hsw' : ((sw : ℚ)) ≠ 0 := by positivity
  have hsh' : ((sh : ℚ)) ≠ 0 := by positivity
  have hscale : min (((2 * sw : Nat) : ℚ) / (sw : ℚ)) (((2 * sh : Nat) : ℚ) / (sh : ℚ)) = 2 := by
    push_cast
    rw [mul_div_assoc, div_self hsw', mul_one, mul_div_assoc, div_self hsh', mul_one, min_self]
  have hcw : (sw : ℚ) * 2 = ((2 * sw : Nat) : ℚ) := by push_cast; ring
  have hch : (sh : ℚ) * 2 = ((2 * sh : Nat) : ℚ) := by push_cast; ring
  have hw : (resize_image_to_fit sw sh alpha (2 * sw) (2 * sh)).new_width = 2 * sw := by
    show (pyInt ((sw : ℚ) *
      min (((2 * sw : Nat) : ℚ) / (sw : ℚ)) (((2 * sh : Nat) : ℚ) / (sh : ℚ)))).toNat = 2 * sw
    rw [hscale, hcw, pyInt_of_nonneg (by positivity), Int.floor_natCast, Int.toNat_natCast]
  have hh : (resize_image_to_fit sw sh alpha (2 * sw) (2 * sh)).new_height = 2 * sh := by
    show (pyInt ((sh : ℚ) *
      min (((2 * sw : Nat) : ℚ) / (sw : ℚ)) (((2 * sh : Nat) : ℚ) / (sh : ℚ)))).toNat = 2 * sh
    rw [hscale, hch, pyInt_of_nonneg (by positivity), Int.floor_natCast, Int.toNat_natCast]
  have hx : (resize_image_to_fit sw sh alpha (2 * sw) (2 * sh)).x = 0 := by
    show Int.fdiv (((2 * sw : Nat) : ℤ) -
      ((resize_image_to_fit sw sh alpha (2 * sw) (2 * sh)).new_width : ℤ)) 2 = 0
    rw [hw]
    simp
  have hy : (resize_image_to_fit sw sh alpha (2 * sw) (2 * sh)).y = 0 := by
    show Int.fdiv (((2 * sh : Nat) : ℤ) -
      ((resize_image_to_fit sw sh alpha (2 * sw) (2 * sh)).new_height : ℤ)) 2 = 0
    rw [hh]
    simp
  exact ⟨rfl, hw, hh, hx, hy⟩

/-- C1, witness: the amended statement applied to a 1500x1500 source and
its exact double 3000x3000. -/
theorem C1_resample_always_lanczos_witness :
    (resize_image_to_fit 1500 1500 false 1920 1080).resample = ResampleMode.lanczos ∧
    (resize_image_to_fit 1500 1500 false (2 * 1500) (2 * 1500)).new_width = 2 * 1500 ∧
    (resize_image_to_fit 1500 1500 false (2 * 1500) (2 * 1500)).x = 0 :=
  ⟨(C1_resample_always_lanczos 1500 1500 1920 1080 false (by decide) (by decide)).1,
   (C1_resample_always_lanczos 1500 1500 1920 1080 false (by decide) (by decide)).2.1,
   (C1_resample_always_lanczos 1500 1500 1920 1080 false (by decide) (by decide)).2.2.2.1⟩

/-- C7: resize_image_to_fit scales by scale = min(target_w/src_w,
target_h/src_h), yields new dimensions floor(src*scale), and places the
content at ((target_w - new_w) // 2, (target_h - new_h) // 2) with Python
floor division, returning exactly this placement box. -/
theorem C7_resize_placement_geometry (sw sh tw th : Nat) (alpha : Bool)
    (hsw : 0 < sw) (hsh : 0 < sh) :
    ((resize_image_to_fit sw sh alpha tw th).new_width : ℤ) =
      ⌊(sw : ℚ) * min ((tw : ℚ) / (sw : ℚ)) ((th : ℚ) / (sh : ℚ))⌋ ∧
    ((resize_image_to_fit sw sh alpha tw th).new_height : ℤ) =
      ⌊(sh : ℚ) * min ((tw : ℚ) / (sw : ℚ)) ((th : ℚ) / (sh : ℚ))⌋ ∧
    (resize_image_to_fit sw sh alpha tw th).x =
      Int.fdiv ((tw : ℤ) - ((resize_image_to_fit sw sh alpha tw th).new_width : ℤ)) 2 ∧
    (resize_image_to_fit sw sh alpha tw th).y =
      Int.fdiv ((th : ℤ) - ((resize_image_to_fit sw sh alpha tw th).new_height : ℤ)) 2 := by
  have hq1 : 0 ≤ (sw : ℚ) * min ((tw : ℚ) / (sw : ℚ)) ((th : ℚ) / (sh : ℚ)) :=
    mul_nonneg (by positivity) (scale_nonneg sw sh tw th)
  have hq2 : 0 ≤ (sh : ℚ) * min ((tw : ℚ) / (sw : ℚ)) ((th : ℚ) / (sh : ℚ)) :=
    mul_nonneg (by positivity) (scale_nonneg sw sh tw th)
  refine ⟨?_, ?_, rfl, rfl⟩
  · show ((pyInt ((sw : ℚ) * min ((tw : ℚ) / (sw : ℚ)) ((th : ℚ) / (sh : ℚ)))).toNat : ℤ) = _
    rw [pyInt_of_nonneg hq1]
    exact Int.toNat_of_nonneg (Int.floor_nonneg.mpr hq1)
  · show ((pyInt ((sh : ℚ) * min ((tw : ℚ) / (sw : ℚ)) ((th : ℚ) / (sh : ℚ)))).toNat : ℤ) = _
    rw [pyInt_of_nonneg hq2]
    exact Int.toNat_of_nonneg (Int.floor_nonneg.mpr hq2)

/-- C7, witness: the placement geometry applied to a 9000x9000 mosaic on
the 1920x1080 video canvas. -/
theorem C7_resize_placement_geometry_witness :
    ((resize_image_to_fit 9000 9000 false 1920 1080).new_width : ℤ) =
      ⌊((9000 : Nat) : ℚ) * min (((1920 : Nat) : ℚ) / ((9000 : Nat) : ℚ))
        (((1080 : Nat) : ℚ) / ((9000 : Nat) : ℚ))⌋ ∧
    (resize_image_to_fit 9000 9000 false 1920 1080).x =
      Int.fdiv (((1920 : Nat) : ℤ) -
        ((resize_image_to_fit 9000 9000 false 1920 1080).new_width : ℤ)) 2 :=
  ⟨(C7_resize_placement_geometry 9000 9000 1920 1080 false (by decide) (by decide)).1,
   (C7_resize_placement_geometry 9000 9000 1920 1080 false (by decide) (by decide)).2.2.1⟩

/-- C10: for positive source and target dimensions, resize_image_to_fit
returns a canvas of exactly the target dimensions in opaque RGB mode, and
a placement box with nonnegative offsets whose extent stays inside the
canvas on both axes. -/
theorem C10_resize_bounds (sw sh tw th : Nat) (alpha : Bool)
    (hsw : 0 < sw) (hsh : 0 < sh) (htw : 0 < tw) (hth : 0 < th) :
    (resize_image_to_fit sw sh alpha tw th).canvasWidth = tw ∧
    (resize_image_to_fit sw sh alpha tw th).canvasHeight = th ∧
    (resize_image_to_fit sw sh alpha tw th).canvasMode = "RGB" ∧
    0 ≤ (resize_image_to_fit sw sh alpha tw th).x ∧
    0 ≤ (resize_image_to_fit sw sh alpha tw th).y ∧
    (resize_image_to_fit sw sh alpha tw th).x +
      ((resize_image_to_fit sw sh alpha tw th).new_width : ℤ) ≤ (tw : ℤ) ∧
    (resize_image_to_fit sw sh alpha tw th).y +
      ((resize_image_to_fit sw sh alpha tw th).new_height : ℤ) ≤ (th : ℤ) := by
  have hw := resize_new_width_le sw sh tw th alpha hsw
  have hh := resize_new_height_le sw sh tw th alpha hsh
  have hwz : (((resize_image_to_fit sw sh alpha tw th).new_width : ℤ)) ≤ (tw : ℤ) := by
    exact_mod_cast hw
  have hhz : (((resize_image_to_fit sw sh alpha tw th).new_height : ℤ)) ≤ (th : ℤ) := by
    exact_mod_cast hh
  have hxdef : (resize_image_to_fit sw sh alpha tw th).x =
      Int.fdiv ((tw : ℤ) - ((resize_image_to_fit sw sh alpha tw th).new_width : ℤ)) 2 := rfl
  have hydef : (resize_image_to_fit sw sh alpha tw th).y =
      Int.fdiv ((th : ℤ) - ((resize_image_to_fit sw sh alpha tw th).new_height : ℤ)) 2 := rfl
  have hx0 : 0 ≤ (resize_image_to_fit sw sh alpha tw th).x := by
    rw [hxdef]
    exact Int.fdiv_nonneg (by omega) (by norm_num)
  have hy0 : 0 ≤ (resize_image_to_fit sw sh alpha tw th).y := by
    rw [hydef]
    exact Int.fdiv_nonneg (by omega) (by norm_num)
  have hxle : (resize_image_to_fit sw sh alpha tw th).x ≤
      (tw : ℤ) - ((resize_image_to_fit sw sh alpha tw th).new_width : ℤ) := by
    rw [hxdef, Int.fdiv_eq_ediv _ (by norm_num)]
    exact Int.ediv_le_self 2 (by omega)
  have hyle : (resize_image_to_fit sw sh alpha tw th).y ≤
      (th : ℤ) - ((resize_image_to_fit sw sh alpha tw th).new_height : ℤ) := by
    rw [hydef, Int.fdiv_eq_ediv _ (by norm_num)]
    exact Int.ediv_le_self 2 (by omega)
  exact ⟨rfl, rfl, rfl, hx0, hy0, by omega, by omega⟩

/-- C10, witness: the bounds invariant applied to a 3000x2000 source on
the 1920x1080 canvas. -/
theorem C10_resize_bounds_witness :
    (resize_image_to_fit 3000 2000 true 1920 1080).canvasWidth = 1920 ∧
    0 ≤ (resize_image_to_fit 3000 2000 true 1920 1080).x ∧
    (resize_image_to_fit 3000 2000 true 1920 1080).x +
      ((resize_image_to_fit 3000 2000 true 1920 1080).new_width : ℤ) ≤ ((1920 : Nat) : ℤ) :=
  ⟨(C10_resize_bounds 3000 2000 1920 1080 true (by decide) (by decide) (by decide) (by decide)).1,
   (C10_resize_bounds 3000 2000 1920 1080 true (by decide) (by decide) (by decide)
     (by decide)).2.2.2.1,
   (C10_resize_bounds 3000 2000 1920 1080 true (by decide) (by decide) (by decide)
     (by decide)).2.2.2.2.2.1⟩

/-- C2, counterexample: a run whose single frame fails to compose writes
zero frames to the stream, yet the writer still finalizes the output file
and create_timelapse_video returns True — the claim requires such a run
to be treated as an overall failure. -/
theorem C2_counterexample :
    (create_timelapse_video [Except.error ()]).framesWritten = 0 ∧
    (create_timelapse_video [Except.error ()]).fileFinalized = true ∧
    (create_timelapse_video [Except.error ()]).success = true := by
  decide

/-- C2 (amended): create_timelapse_video reports failure exactly when the
input image list is empty; with a non-empty list it finalizes the output
file and reports success even when every per-frame composition failed and
zero frames were written — the frame count equals the number of
non-raising frames. -/
theorem C2_no_frames_accounting (frames : List (Except Unit Unit)) :
    ((create_timelapse_video frames).success = false ↔ frames = []) ∧
    (create_timelapse_video frames).fileFinalized = !frames.isEmpty ∧
    (create_timelapse_video frames).framesWritten =
      (frames.filter (fun f => f.isOk)).length := by
  match frames with
  | [] => exact ⟨by simp [create_timelapse_video], by simp [create_timelapse_video], by
      simp [create_timelapse_video]⟩
  | f :: rest =>
    refine ⟨?_, ?_, ?_⟩
    · simp [create_timelapse_video]
    · simp [create_timelapse_video]
    · simp [create_timelapse_video]

/-- C2, witness: the accounting applied to a run with one failing and one
succeeding frame. -/
theorem C2_no_frames_accounting_witness :
    ((create_timelapse_video [Except.error (), Except.ok ()]).success = false ↔
      ([Except.error (), Except.ok ()] : List (Except Unit Unit)) = []) ∧
    (create_timelapse_video [Except.error (), Except.ok ()]).framesWritten =
      (([Except.error (), Except.ok ()] : List (Except Unit Unit)).filter
        (fun f => f.isOk)).length :=
  ⟨(C2_no_frames_accounting [Except.error (), Except.ok ()]).1,
   (C2_no_frames_accounting [Except.error (), Except.ok ()]).2.2⟩

/-- C3: download_tile issues at most max_retries attempts, sleeps
2^attempt_index seconds after each failed attempt except the last (so the
performed delays are 1s, 2s, 4s, ...), and when the server fails exactly
max_retries - 1 times and then succeeds, it returns the response bytes. -/
theorem C3_download_tile_retry (server : Nat → Option TileBytes) (mr : Nat)
    (hmr : 1 ≤ mr) :
    (download_tile server mr).attempts ≤ mr ∧
    (download_tile server mr).sleeps =
      (List.range ((download_tile server mr).attempts - 1)).map (fun i => 2 ^ i) ∧
    ∀ b : TileBytes, (∀ i, i < mr - 1 → server i = none) → server (mr - 1) = some b →
      (download_tile server mr).outcome = FetchOutcome.success b := by
  refine ⟨downloadTileGo_attempts_le server mr mr 0, ?_, ?_⟩
  · have h := downloadTileGo_sleeps server mr mr 0 (by omega)
    simpa using h
  · intro b hfail hsucc
    exact downloadTileGo_success server mr b mr 0 (by omega) (by omega) hmr
      (fun i _ hlt => hfail i hlt) hsucc

/-- A stub tile server that fails on the first two attempts and then
responds with content. -/
def exampleServer : Nat → Option TileBytes :=
  fun i => if i < 2 then none else some [42]

/-- C3, witness: with max_retries = 3 against a server failing exactly
twice, download_tile returns the bytes, within the attempt bound and with
the delay sequence determined by its attempt count. -/
theorem C3_download_tile_retry_witness :
    (download_tile exampleServer 3).attempts ≤ 3 ∧
    (download_tile exampleServer 3).sleeps =
      (List.range ((download_tile exampleServer 3).attempts - 1)).map (fun i => 2 ^ i) ∧
    (download_tile exampleServer 3).outcome = FetchOutcome.success [42] :=
  ⟨(C3_download_tile_retry exampleServer 3 (by decide)).1,
   (C3_download_tile_retry exampleServer 3 (by decide)).2.1,
   (C3_download_tile_retry exampleServer 3 (by decide)).2.2 [42] (by decide) (by decide)⟩

/-- C4: merge_tiles always returns a canvas of columns*tile_w by
rows*tile_h pixels regardless of the tile results; the tile at list index
i is pasted at ((i mod columns)*tile_w, (i div columns)*tile_h) in
row-major order; and every paste comes from a successfully decoded tile,
so absent or undecodable tiles leave their cell as background and never
abort the merge. -/
theorem C4_merge_tiles_spec {α : Type} (td : List (TileSlot α)) (cols rows tw th : Nat) :
    (merge_tiles td (cols, rows) (tw, th)).width = cols * tw ∧
    (merge_tiles td (cols, rows) (tw, th)).height = rows * th ∧
    (∀ i img, td.get? i = some (some (Except.ok img)) →
      (i % cols * tw, i / cols * th, img) ∈ (merge_tiles td (cols, rows) (tw, th)).pastes) ∧
    ∀ p ∈ (merge_tiles td (cols, rows) (tw, th)).pastes,
      ∃ i img, td.get? i = some (some (Except.ok img)) ∧
        p = (i % cols * tw, i / cols * th, img) := by
  refine ⟨rfl, rfl, ?_, ?_⟩
  · intro i img h
    have hm := mergePastes_mem_of_get cols tw th 0 td i img h
    simpa using hm
  · intro p hp
    rcases mergePastes_get_of_mem cols tw th 0 td p hp with ⟨i, img, hget, hpe⟩
    refine ⟨i, img, hget, ?_⟩
    simpa using hpe

/-- C4, witness: a 3x3 grid of 1000x1000 tiles with one decoded tile, one
absent slot and one failing decode — full canvas dimensions and the
single paste at cell 0. -/
theorem C4_merge_tiles_spec_witness :
    (merge_tiles [some (Except.ok (5 : Nat)), none, some (Except.error ())]
      (3, 3) (1000, 1000)).width = 3 * 1000 ∧
    (0 % 3 * 1000, 0 / 3 * 1000, (5 : Nat)) ∈
      (merge_tiles [some (Except.ok (5 : Nat)), none, some (Except.error ())]
        (3, 3) (1000, 1000)).pastes :=
  ⟨(C4_merge_tiles_spec [some (Except.ok (5 : Nat)), none, some (Except.error ())]
      3 3 1000 1000).1,
   (C4_merge_tiles_spec [some (Except.ok (5 : Nat)), none, some (Except.error ())]
      3 3 1000 1000).2.2.1 0 5 rfl⟩

/-- C5, counterexample: the claim asserts the output is sorted ascending
by the key of the shape prefix_YYYYMMDD_HHMMSS.ext with the raw filename
as fallback for non-matching names.  The directory listing
[merged_tiles_1_29.png, merged_tiles_1_2_3.png] contains two names that do
not match that shape (so the claim's key is the raw filename for both, and
the raw names order 29-file first), yet the code keys them "1_29" and
"1_2" and returns the 2_3-file first — not ascending in the claim's key. -/
theorem C5_counterexample :
    get_images_for_date ["merged_tiles_1_29.png".toList, "merged_tiles_1_2_3.png".toList] =
      ["merged_tiles_1_2_3.png".toList, "merged_tiles_1_29.png".toList] ∧
    claimSortKey "merged_tiles_1_2_3.png".toList = "merged_tiles_1_2_3.png".toList ∧
    claimSortKey "merged_tiles_1_29.png".toList = "merged_tiles_1_29.png".toList ∧
    pyStrLE (claimSortKey "merged_tiles_1_2_3.png".toList)
      (claimSortKey "merged_tiles_1_29.png".toList) = false := by
  decide

/-- C5 (amended): get_images_for_date returns the glob-matching files
sorted ascending by extract_timestamp_key — parts[2] + "_" + parts[3]
(extension stripped) whenever the name splits into at least four
underscore-separated pieces, the raw filename otherwise (so a malformed
name never causes a failure, but a four-piece malformed name is keyed by
its pieces, not by the raw filename); snapshot names of the documented
shape are keyed by date and time, and the three example files come out in
chronological order 08:00, 09:00, 10:00. -/
theorem C5_snapshot_ordering (dirFiles : List (List Char)) :
    List.Sorted timestampKeyLE (get_images_for_date dirFiles) ∧
    (get_images_for_date dirFiles).Perm (dirFiles.filter snapshotGlobMatch) ∧
    extract_timestamp_key "merged_tiles_20240101_090000.png".toList =
      "20240101_090000".toList ∧
    get_images_for_date ["merged_tiles_20240101_090000.png".toList,
        "merged_tiles_20240101_080000.png".toList,
        "merged_tiles_20240101_100000.png".toList] =
      ["merged_tiles_20240101_080000.png".toList,
       "merged_tiles_20240101_090000.png".toList,
       "merged_tiles_20240101_100000.png".toList] := by
  refine ⟨?_, ?_, by decide, by decide⟩
  · exact List.sorted_insertionSort timestampKeyLE _
  · exact List.perm_insertionSort timestampKeyLE _

/-- C6, counterexample: with every tile download failing, capture_main
writes no image and no metadata — but the process still completes with
exit status 0, while the claim requires a non-zero completion status. -/
theorem C6_counterexample :
    (capture_main [Except.error ()] "wplace_1.png").imagesWritten = [] ∧
    (capture_main [Except.error ()] "wplace_1.png").metadataWritten = false ∧
    (capture_main [Except.error ()] "wplace_1.png").exitCode = 0 := by
  decide

/-- C6 (amended): when zero tiles were fetched successfully, the capture
reports the failure only by logging: it returns early writing no output
image and no metadata, and the process completion status is 0, because
the module entry point ignores main's return value and never exits
non-zero. -/
theorem C6_zero_tiles_no_output (fetches : List (Except Unit TileBytes)) (filename : String)
    (h : (fetches.filter (fun f => f.isOk)).length = 0) :
    (capture_main fetches filename).imagesWritten = [] ∧
    (capture_main fetches filename).metadataWritten = false ∧
    (capture_main fetches filename).exitCode = 0 := by
  unfold capture_main
  simp [h]

/-- C6, witness: the zero-success accounting applied to a run of three
failed downloads. -/
theorem C6_zero_tiles_no_output_witness :
    (capture_main [Except.error (), Except.error (), Except.error ()]
      "wplace_123.png").imagesWritten = [] ∧
    (capture_main [Except.error (), Except.error (), Except.error ()]
      "wplace_123.png").exitCode = 0 :=
  ⟨(C6_zero_tiles_no_output [Except.error (), Except.error (), Except.error ()]
      "wplace_123.png" (by decide)).1,
   (C6_zero_tiles_no_output [Except.error (), Except.error (), Except.error ()]
      "wplace_123.png" (by decide)).2.2⟩

/-- C8: the timestamp derivation of create_timelapse_video is not total.
For the filename merged_tiles_20240101.png — which matches the snapshot
glob and therefore reaches the frame loop — the name splits into exactly
three pieces, the guard len(parts) >= 3 passes, and reading parts[3]
raises IndexError (modelled by none), so the frame is dropped by the
per-frame handler instead of receiving the synthetic label; a well-formed
name is labeled YYYY-MM-DD HH:MM:SS as documented.  The sibling
get_images_for_date guards the identical parsing with len(parts) >= 4,
showing the intended guard. -/
theorem C8_timestamp_derivation_bug :
    derive_timestamp "merged_tiles_20240101.png".toList 0 = none ∧
    snapshotGlobMatch "merged_tiles_20240101.png".toList = true ∧
    derive_timestamp "merged_tiles_20240101_090000.png".toList 0 =
      some "2024-01-01 09:00:00".toList := by
  decide

/-- C9: with fewer than two matching images, create_image_list_file
returns None, and create_timelapse_with_ffmpeg unpacks that value before
any handler is active, so the call raises TypeError instead of returning
False. -/
theorem C9_ffmpeg_unpack_raises (images : List (List Char)) (ffmpegOk : Bool)
    (h : images.length < 2) :
    create_image_list_file images = none ∧
    create_timelapse_with_ffmpeg images ffmpegOk = FfmpegCallResult.typeErrorRaised := by
  have h1 : create_image_list_file images = none := by
    unfold create_image_list_file
    simp only [h, if_pos]
  refine ⟨h1, ?_⟩
  unfold create_timelapse_with_ffmpeg
  rw [h1]

/-- C9, witness: a single-image run raises the unpacking TypeError. -/
theorem C9_ffmpeg_unpack_raises_witness :
    create_image_list_file ["wplace_1.png".toList] = none ∧
    create_timelapse_with_ffmpeg ["wplace_1.png".toList] true =
      FfmpegCallResult.typeErrorRaised :=
  ⟨(C9_ffmpeg_unpack_raises ["wplace_1.png".toList] true (by decide)).1,
   (C9_ffmpeg_unpack_raises ["wplace_1.png".toList] true (by decide)).2⟩

end Wplace
